import Mathlib

/-!
# Movit luma transition: staging (`process`) and materialisation (`get_image`)

A shallow embedding of `src/modules/movit/transition_movit_luma.cpp`.

* Pointers are natural numbers; a nullable pointer is an `Option`.
* `double` values are exact rationals; the one division the module performs
  yields +infinity when the divisor is 0.
* Framework calls whose code lives outside the module (image acquisition of a
  frame and what it leaves of the frame's own stack, the producer factory, a
  producer's frame request, position and progress of the transition, value
  conversions of the property store) are fields of `Env`: the module's code is
  verified for every behaviour of them.
* A call that would read through a null pointer does not return: `none`.
* The property store is a map from keys to optional values.
-/

namespace MovitLuma

/-! ## Property store -/

/-- A value held by a property: a string, an integer, a finite double, the
double +infinity, or a data pointer. A data pointer stored by this module
carries its close destructor. -/
inductive PropValue where
  | str (s : String)
  | int (i : Int)
  | dbl (d : ℚ)
  | inf
  | data (ptr : Nat)
deriving DecidableEq

/-- An entry of a frame's image stack. -/
inductive StackItem where
  | frame (f : Option Nat)
  | service (t : Nat)
  | get_image
deriving DecidableEq

/-- A property store (`mlt_properties`): key to value, `none` when absent. -/
abbrev Props := String → Option PropValue

/-- Store update at one key; writing `none` removes the key. -/
def Props.write (p : Props) (k : String) (v : Option PropValue) : Props :=
  fun k' => if k' = k then v else p k'

/-- A pattern producer object: its own property store and its seek position. -/
structure Producer where
  properties : Props
  position : Int

/-- Outcome of one `mlt_frame_get_image` call: the status code, the image
pointer and the values left in the in/out parameters format, width, height. -/
structure Acquired where
  status : Int
  image : Nat
  format : Nat
  width : Int
  height : Int

/-- Framework behaviour the module depends on but does not define. -/
structure Env where
  /-- integer reading of a property value that is not stored as an integer -/
  to_int : PropValue → Int
  /-- string reading of a property value that is not stored as a string -/
  to_string : PropValue → Option String
  /-- result of `mlt_properties_anim_get_double` on the stored value, position, length -/
  anim_get_double : Option PropValue → Int → Int → ℚ
  /-- result of `mlt_transition_get_position (transition, frame)` by frame pointer -/
  get_position : Nat → Int
  /-- result of `mlt_transition_get_length (transition)` -/
  get_length : Int
  /-- result of `mlt_transition_get_progress (transition, frame)` by frame pointer -/
  get_progress : Nat → ℚ
  /-- the enumerator `mlt_image_movit` -/
  mlt_image_movit : Nat
  /-- result of `mlt_frame_get_image (frame, &image, &format, &width, &height, writable)` -/
  frame_get_image : Nat → Nat → Int → Int → Int → Acquired
  /-- what `mlt_frame_get_image` on a frame leaves of that frame's own image
  stack: the call runs the callbacks staged on the frame, which pop their own
  entries -/
  frame_unwind : Nat → List StackItem → List StackItem
  /-- result of `mlt_factory_producer (profile, nullptr, resource)`: the initial state of
  the producer built, `none` when construction fails -/
  factory : String → Option Producer
  /-- result of `mlt_service_get_frame (producer, &wipe, 0)`: status and frame pointer -/
  service_get_frame : Nat → Producer → Int × Option Nat

/-- Modelled from the spec: the configuration store's string getter
`mlt_properties_get` (framework code outside the module); an absent key reads
as the null pointer, a stored string reads as itself. -/
def mlt_properties_get (env : Env) (p : Props) (k : String) : Option String :=
  match p k with
  | none => none
  | some (PropValue.str s) => some s
  | some v => env.to_string v

/-- Modelled from the spec: the configuration store's integer getter
`mlt_properties_get_int`; an absent key reads as 0. -/
def mlt_properties_get_int (env : Env) (p : Props) (k : String) : Int :=
  match p k with
  | none => 0
  | some (PropValue.int i) => i
  | some v => env.to_int v

/-- Modelled from the spec: `mlt_properties_get_data`; null unless the key
holds a data pointer. -/
def mlt_properties_get_data (p : Props) (k : String) : Option Nat :=
  match p k with
  | some (PropValue.data q) => some q
  | _ => none

/-- Modelled from the spec: `mlt_properties_set`; "setting a key to an explicit
absent value removes it". -/
def mlt_properties_set (p : Props) (k : String) (v : Option String) : Props :=
  p.write k (v.map PropValue.str)

/-- Modelled from the spec: `mlt_properties_set_double`. -/
def mlt_properties_set_double (p : Props) (k : String) (d : ℚ) : Props :=
  p.write k (some (PropValue.dbl d))

/-- The double `1.0 / d` as a property value: the exact quotient, and +infinity
when `d` is 0. -/
def one_over (d : ℚ) : PropValue :=
  if d = 0 then PropValue.inf else PropValue.dbl (1 / d)

/-- Modelled from the spec: `mlt_properties_set_double` for a value that need
not be finite. -/
def mlt_properties_set_value (p : Props) (k : String) (v : PropValue) : Props :=
  p.write k (some v)

/-- Modelled from the spec: `mlt_properties_set_int`. -/
def mlt_properties_set_int (p : Props) (k : String) (i : Int) : Props :=
  p.write k (some (PropValue.int i))

/-- Modelled from the spec: `mlt_properties_set_data` with a destructor: the
new pointer replaces the stored one, and the pointer that was stored, if any,
is handed to its destructor (second component). -/
def mlt_properties_set_data (p : Props) (k : String) (v : Option Nat) :
    Props × Option Nat :=
  (p.write k (v.map PropValue.data), mlt_properties_get_data p k)

/-- Modelled from the spec: `mlt_properties_pass (dst, src, pre)`: every entry
of `src` whose key starts with `pre` is copied to `dst` under the key with the
start removed. -/
def mlt_properties_pass (dst src : Props) (pre : String) : Props :=
  fun k => match src (pre ++ k) with
    | some v => some v
    | none => dst k

/-! ## Frames and their deferred stack -/

/-- The two effect variants the module selects between. -/
inductive Effect where
  | MixEffect
  | LumaMixEffect
deriving DecidableEq

/-- What `GlslManager` has recorded on a frame for this service. -/
structure Glsl where
  input : Option Nat
  secondary_input : Option (Nat × Nat)
  third_input : Option (Nat × Nat)
  effect : Option Effect
deriving DecidableEq

/-- The primary frame: its pointer, its image stack (top first), its property
store and the effect binding recorded on it. -/
structure Frame where
  id : Nat
  stack : List StackItem
  properties : Props
  glsl : Glsl

/-- Pushes a frame pointer (`mlt_frame_push_frame`). -/
def mlt_frame_push_frame (a : Frame) (f : Option Nat) : Frame :=
  { a with stack := StackItem.frame f :: a.stack }

/-- Pushes a service pointer (`mlt_frame_push_service`). -/
def mlt_frame_push_service (a : Frame) (t : Nat) : Frame :=
  { a with stack := StackItem.service t :: a.stack }

/-- Pushes the materialisation callback (`mlt_frame_push_get_image`). -/
def mlt_frame_push_get_image (a : Frame) : Frame :=
  { a with stack := StackItem.get_image :: a.stack }

/-- Pops a frame pointer; fails when the top is not one. -/
def mlt_frame_pop_frame (a : Frame) : Option (Option Nat × Frame) :=
  match a.stack with
  | StackItem.frame f :: rest => some (f, { a with stack := rest })
  | _ => none

/-- Pops a service pointer; fails when the top is not one. -/
def mlt_frame_pop_service (a : Frame) : Option (Nat × Frame) :=
  match a.stack with
  | StackItem.service t :: rest => some (t, { a with stack := rest })
  | _ => none

/-- Pops the callback, as the frame layer does before it calls it. -/
def mlt_frame_pop_get_image (a : Frame) : Option Frame :=
  match a.stack with
  | StackItem.get_image :: rest => some { a with stack := rest }
  | _ => none

/-! ## The transition and what surrounds it -/

/-- The transition together with the objects `process` and `get_image` touch. -/
structure World where
  /-- the transition's pointer, also its service handle -/
  id : Nat
  /-- the store `MLT_TRANSITION_PROPERTIES (transition)` -/
  properties : Props
  /-- hold count of the service lock -/
  lock : Nat
  /-- producer objects by pointer -/
  producers : Nat → Producer
  /-- the pointer the next constructed producer receives -/
  next : Nat
  /-- arguments of the `mlt_factory_producer` calls, most recent first -/
  factory_calls : List String
  /-- pointers handed to `mlt_producer_close`, most recent first -/
  closed : List Nat
  /-- property stores of the frames other than the primary one -/
  frame_properties : Nat → Props
  /-- pointers handed to `mlt_frame_close`, most recent first -/
  frames_closed : List Nat
  /-- sizes reported by `mlt_log_error`, most recent first -/
  log : List (Int × Int)

/-- Acquires the service lock (`mlt_service_lock`). -/
def mlt_service_lock (w : World) : World := { w with lock := w.lock + 1 }

/-- Releases the service lock (`mlt_service_unlock`). -/
def mlt_service_unlock (w : World) : World := { w with lock := w.lock - 1 }

/-! ## `get_image`, the materialiser (source lines 36-117) -/

/-- What a `get_image` call leaves behind: the returned code, the transition and
its surroundings, the primary frame, and the out-parameters (`image` is `none`
when `*image` was not written). -/
structure GetImageResult where
  error : Int
  world : World
  a_frame : Frame
  image : Option Nat
  format : Nat
  width : Int
  height : Int

/-- The three-input branch (source lines 62-86), entered with the lock held. -/
def get_image_three (env : Env) (w : World) (a_frame : Frame) (b_frame c_frame : Nat)
    (reverse : Int) (mix inverse softness : ℚ) (width height writable : Int) :
    GetImageResult :=
  -- Set the Movit parameters.
  let p1 := mlt_properties_set w.properties "_movit.parms.float.strength_first" none
  let p2 := mlt_properties_set p1 "_movit.parms.float.strength_second" none
  let p3 := mlt_properties_set_double p2 "_movit.parms.float.progress"
    (if reverse ≠ 0 then inverse else mix)
  let p4 := mlt_properties_set_value p3 "_movit.parms.float.transition_width"
    (one_over (softness + 1 / 10000))
  let p5 := mlt_properties_set_int p4 "_movit.parms.int.inverse"
    (if mlt_properties_get_int env p4 "invert" = 0 then 1 else 0)
  let w1 := { w with properties := p5 }
  -- Get the images; every call overwrites `error`.
  let ra := env.frame_get_image a_frame.id env.mlt_image_movit width height writable
  let a_frame := { a_frame with stack := env.frame_unwind a_frame.id a_frame.stack }
  let rb := env.frame_get_image b_frame ra.format ra.width ra.height writable
  let rc := env.frame_get_image c_frame rb.format rb.width rb.height writable
  let error := rc.status
  if rc.width < 1 ∨ rc.height < 1 then
    { error := error
      world := { w1 with log := (rc.width, rc.height) :: w1.log }
      a_frame := a_frame
      image := none
      format := rc.format, width := rc.width, height := rc.height }
  else
    let g : Glsl :=
      { input := some ra.image
        secondary_input := some (rb.image, b_frame)
        third_input := some (rc.image, c_frame)
        effect := some Effect.LumaMixEffect }
    { error := error
      world := mlt_service_unlock w1
      a_frame := { a_frame with glsl := g }
      image := some w.id
      format := rc.format, width := rc.width, height := rc.height }

/-- The two-input branch (source lines 90-111), entered with the lock held. -/
def get_image_two (env : Env) (w : World) (a_frame : Frame) (b_frame : Nat)
    (reverse : Int) (mix inverse : ℚ) (width height writable : Int) :
    GetImageResult :=
  -- Set the Movit parameters.
  let p1 := mlt_properties_set w.properties "_movit.parms.int.inverse" none
  let p2 := mlt_properties_set p1 "_movit.parms.float.progress" none
  let p3 := mlt_properties_set p2 "_movit.parms.float.transition_width" none
  let p4 := mlt_properties_set_double p3 "_movit.parms.float.strength_first"
    (if reverse ≠ 0 then mix else inverse)
  let p5 := mlt_properties_set_double p4 "_movit.parms.float.strength_second"
    (if reverse ≠ 0 then inverse else mix)
  let w1 := { w with properties := p5 }
  -- Get the two images; every call overwrites `error`.
  let ra := env.frame_get_image a_frame.id env.mlt_image_movit width height writable
  let a_frame := { a_frame with stack := env.frame_unwind a_frame.id a_frame.stack }
  let rb := env.frame_get_image b_frame ra.format ra.width ra.height writable
  let error := rb.status
  if rb.width < 1 ∨ rb.height < 1 then
    { error := error
      world := { w1 with log := (rb.width, rb.height) :: w1.log }
      a_frame := a_frame
      image := none
      format := rb.format, width := rb.width, height := rb.height }
  else
    let g : Glsl :=
      { a_frame.glsl with
        input := some ra.image
        secondary_input := some (rb.image, b_frame)
        effect := some Effect.MixEffect }
    { error := error
      world := mlt_service_unlock w1
      a_frame := { a_frame with glsl := g }
      image := some w.id
      format := rb.format, width := rb.width, height := rb.height }

/-- The body of `get_image` after the pops (source lines 47-117): lock, the
transition parameters, and the branch chosen by the pattern slot. -/
def get_image_body (env : Env) (w : World) (a_frame : Frame) (b_frame : Nat)
    (c_frame : Option Nat) (width height writable : Int) : GetImageResult :=
  let w0 := mlt_service_lock w
  -- Get the transition parameters
  let position := env.get_position a_frame.id
  let length := env.get_length
  let reverse := mlt_properties_get_int env w0.properties "reverse"
  let mix := env.get_progress a_frame.id
  let inverse := 1 - mix
  let softness := env.anim_get_double (w0.properties "softness") position length
  match c_frame with
  | some c_frame =>
    get_image_three env w0 a_frame b_frame c_frame reverse mix inverse softness
      width height writable
  | none =>
    get_image_two env w0 a_frame b_frame reverse mix inverse width height writable

/-- The callback `get_image` (source lines 36-117). The call fails (`none`)
when the stack does not hold a service pointer and two frame pointers on top,
when the popped service is not the transition, or when the secondary frame
pointer is null: the C code would dereference a wrong or null pointer there. -/
def get_image (env : Env) (w : World) (a_frame : Frame) (width height writable : Int) :
    Option GetImageResult := do
  -- Get the transition object
  let (transition, a1) ← mlt_frame_pop_service a_frame
  -- Get the b frame from the stack
  let (b_frame, a2) ← mlt_frame_pop_frame a1
  let (c_frame, a3) ← mlt_frame_pop_frame a2
  if transition ≠ w.id then none
  let b_frame ← b_frame
  pure (get_image_body env w a3 b_frame c_frame width height writable)

/-! ## `process`, the frame stager (source lines 119-166) -/

/-- Obtains the wipe producer (source lines 124-142): the world afterwards and
the producer pointer `process` goes on with. With `resource` present and a
producer cached, `strcmp` reads `_resource`; when that is null the call does
not return. -/
def obtain_producer (env : Env) (w : World) : Option (World × Option Nat) :=
  let resource := mlt_properties_get env w.properties "resource"
  let last_resource := mlt_properties_get env w.properties "_resource"
  let producer := mlt_properties_get_data w.properties "instance"
  -- If we haven't created the wipe producer or it has changed
  match resource with
  | some resource =>
    if producer ≠ none ∧ last_resource = none then none
    else if producer = none ∨ some resource ≠ last_resource then
      -- Store the last resource now
      let p1 := mlt_properties_set w.properties "_resource" (some resource)
      let made := env.factory resource
      let producer : Option Nat := made.map (fun _ => w.next)
      let producers : Nat → Producer :=
        match made with
        | some st => fun q =>
            if q = w.next then
              { st with properties := mlt_properties_set st.properties "eof" (some "loop") }
            else w.producers q
        | none => w.producers
      let stored := mlt_properties_set_data p1 "instance" producer
      some ({ w with
          properties := stored.1
          producers := producers
          next := if made.isSome then w.next + 1 else w.next
          factory_calls := resource :: w.factory_calls
          closed := stored.2.toList ++ w.closed }, producer)
    else some (w, producer)
  | none => some (w, producer)

/-- The name under which the wipe frame is attached to the primary frame:
`snprintf (name, 64, "movit.luma %s", _unique_id)`. -/
def wipe_name (env : Env) (w : World) : String :=
  ("movit.luma " ++ (mlt_properties_get env w.properties "_unique_id").getD "(null)").take 63

/-- The staging part of `process` (source lines 143-165), run on the world and
the producer pointer left by the cache step. -/
def stage_frames (env : Env) (w1 : World) (producer : Option Nat) (a_frame : Frame)
    (b_frame : Nat) : World × Frame :=
  let staged : World × Frame :=
    match producer with
    | some producer =>
      let position := env.get_position a_frame.id
      let st := w1.producers producer
      let st1 : Producer :=
        { st with properties := mlt_properties_pass st.properties w1.properties "producer." }
      let st2 : Producer := { st1 with position := position }
      let w2 : World :=
        { w1 with producers := fun q => if q = producer then st2 else w1.producers q }
      let got := env.service_get_frame producer st2
      if got.1 = 0 then
        let wipe := got.2
        let attached := mlt_properties_set_data a_frame.properties (wipe_name env w2) wipe
        let w3 : World :=
          { w2 with
            frames_closed := attached.2.toList ++ w2.frames_closed
            frame_properties :=
              match wipe with
              | some f => fun q =>
                  if q = f then mlt_properties_set_int (w2.frame_properties f) "distort" 1
                  else w2.frame_properties q
              | none => w2.frame_properties }
        (w3, mlt_frame_push_frame { a_frame with properties := attached.1 } wipe)
      else
        (w2, mlt_frame_push_frame a_frame none)
    | none =>
      -- We may still not have a producer in which case, dissolve
      (w1, mlt_frame_push_frame a_frame none)
  let a1 := mlt_frame_push_frame staged.2 (some b_frame)
  let a2 := mlt_frame_push_service a1 staged.1.id
  let a3 := mlt_frame_push_get_image a2
  (staged.1, a3)

/-- The stager `process` (source lines 119-166): the world afterwards and the
frame returned, which is the primary frame; `none` when the cache step does not
return. -/
def process (env : Env) (w : World) (a_frame : Frame) (b_frame : Nat) :
    Option (World × Frame) := do
  let obtained ← obtain_producer env w
  pure (stage_frames env obtained.1 obtained.2 a_frame b_frame)

/-- The producer state on which `process` issues its frame request: the
producer after `mlt_properties_pass` and `mlt_producer_seek`. -/
def requested_state (env : Env) (w1 : World) (a_frame : Frame) (producer : Nat) : Producer :=
  { properties :=
      mlt_properties_pass (w1.producers producer).properties w1.properties "producer."
    position := env.get_position a_frame.id }

/-- The value the staging part pushes first, in the pattern slot: the frame the
producer returned with status 0, and the null pointer in every other case. -/
def pattern_slot (env : Env) (w1 : World) (producer : Option Nat) (a_frame : Frame) :
    Option Nat :=
  match producer with
  | some producer =>
    let got := env.service_get_frame producer (requested_state env w1 a_frame producer)
    if got.1 = 0 then got.2 else none
  | none => none

/-- Modelled from the spec: `mlt_transition_get_progress`, which is framework
code; "mix = progress fraction of position within length". -/
def transition_progress (position length : Int) : ℚ := position / length

/-! ## Concrete inputs -/

/-- A concrete framework behaviour. Frame 10 is the primary frame, 20 the
secondary one, any other the pattern frame; their acquisitions report the
statuses `sa`, `sb`, `sc` and all leave the size `wd` x `ht`. The transition is
at `position` of `length`. Only "wipe.pgm" can be built by the factory, and
every producer returns frame 30. -/
def sample_env (sa sb sc wd ht position length : Int) : Env where
  to_int := fun _ => 0
  to_string := fun _ => none
  anim_get_double := fun v _ _ =>
    match v with
    | some (PropValue.dbl d) => d
    | _ => 0
  get_position := fun _ => position
  get_length := length
  get_progress := fun _ => transition_progress position length
  mlt_image_movit := 7
  frame_get_image := fun f fmt _ _ _ =>
    { status := if f = 10 then sa else if f = 20 then sb else sc
      image := f + 100
      format := fmt
      width := wd
      height := ht }
  frame_unwind := fun _ _ => []
  factory := fun r =>
    if r = "wipe.pgm" then some { properties := fun _ => none, position := 0 } else none
  service_get_frame := fun _ _ => (0, some 30)

/-- A transition with pointer 1, the given store, the lock free, and empty
records. -/
def sample_world (properties : Props) : World where
  id := 1
  properties := properties
  lock := 0
  producers := fun _ => { properties := fun _ => none, position := 0 }
  next := 0
  factory_calls := []
  closed := []
  frame_properties := fun _ _ => none
  frames_closed := []
  log := []

/-- The primary frame, pointer 10, with the given stack and nothing bound. -/
def sample_frame (stack : List StackItem) : Frame where
  id := 10
  stack := stack
  properties := fun _ => none
  glsl := { input := none, secondary_input := none, third_input := none, effect := none }

/-- The empty store. -/
def no_properties : Props := fun _ => none

/-- A store without `resource` that holds a cached producer, pointer 7, built
earlier from "wipe.pgm". -/
def cached_properties : Props :=
  (no_properties.write "_resource" (some (PropValue.str "wipe.pgm"))).write "instance"
    (some (PropValue.data 7))

/-- A store with `resource` "wipe.pgm" and a cached producer, pointer 7, but
no `_resource`. -/
def unrecorded_properties : Props :=
  (no_properties.write "resource" (some (PropValue.str "wipe.pgm"))).write "instance"
    (some (PropValue.data 7))

/-- The framework behaviour of `sample_env` with valid sizes, except that the
factory builds a producer from every resource string. -/
def any_factory_env : Env :=
  { sample_env 0 0 0 1920 1080 50 100 with
    factory := fun _ => some { properties := fun _ => none, position := 0 } }

/-- The framework behaviour of `sample_env` with valid sizes, except that no
producer returns a frame. -/
def no_frame_env : Env :=
  { sample_env 0 0 0 1920 1080 50 100 with
    service_get_frame := fun _ _ => (1, none) }

/-- The store of scenario B with softness -1/10000 instead of 0. -/
def pole_properties : Props :=
  (no_properties.write "resource" (some (PropValue.str "wipe.pgm"))).write "softness"
    (some (PropValue.dbl (-1 / 10000)))

/-- The store of scenario B: `resource` is "wipe.pgm", `softness` is 0, and
`invert` and `reverse` are 0. -/
def scenario_B_properties : Props :=
  (((no_properties.write "resource" (some (PropValue.str "wipe.pgm"))).write "softness"
    (some (PropValue.dbl 0))).write "invert" (some (PropValue.int 0))).write "reverse"
    (some (PropValue.int 0))

end MovitLuma

namespace MovitLuma

/-! ## Auxiliary facts -/

theorem Props.write_same (p : Props) (k : String) (v : Option PropValue) :
    p.write k v k = v := by
  simp [Props.write]

theorem Props.write_other (p : Props) (k k' : String) (v : Option PropValue) (h : k' ≠ k) :
    p.write k v k' = p k' := by
  simp [Props.write, h]

/-- On a stack staged as `process` leaves it (callback already popped), the
pops of `get_image` succeed and the call is its body run on the frame with the
remaining stack. -/
theorem get_image_staged (env : Env) (w : World) (a : Frame) (b : Nat) (c : Option Nat)
    (S : List StackItem) (width height writable : Int) :
    get_image env w
        { a with stack := StackItem.service w.id :: StackItem.frame (some b) ::
            StackItem.frame c :: S } width height writable
      = some (get_image_body env w { a with stack := S } b c width height writable) := by
  simp [get_image, mlt_frame_pop_service, mlt_frame_pop_frame]

/-- The pops of `get_image` on any frame whose stack starts with the three
staged entries. -/
theorem get_image_of_stack (env : Env) (w : World) (a : Frame) (b : Nat) (c : Option Nat)
    (S : List StackItem) (width height writable : Int)
    (h : a.stack = StackItem.service w.id :: StackItem.frame (some b) ::
      StackItem.frame c :: S) :
    get_image env w a width height writable
      = some (get_image_body env w { a with stack := S } b c width height writable) := by
  obtain ⟨i, st, pr, g⟩ := a
  simp only at h
  subst h
  exact get_image_staged env w ⟨i, [], pr, g⟩ b c S width height writable

/-- Without a pattern frame the body is the two-input branch under the lock. -/
theorem get_image_body_none (env : Env) (w : World) (a : Frame) (b : Nat)
    (width height writable : Int) :
    get_image_body env w a b none width height writable
      = get_image_two env (mlt_service_lock w) a b
          (mlt_properties_get_int env w.properties "reverse")
          (env.get_progress a.id) (1 - env.get_progress a.id) width height writable := rfl

/-- With a pattern frame the body is the three-input branch under the lock. -/
theorem get_image_body_some (env : Env) (w : World) (a : Frame) (b cf : Nat)
    (width height writable : Int) :
    get_image_body env w a b (some cf) width height writable
      = get_image_three env (mlt_service_lock w) a b cf
          (mlt_properties_get_int env w.properties "reverse")
          (env.get_progress a.id) (1 - env.get_progress a.id)
          (env.anim_get_double (w.properties "softness") (env.get_position a.id)
            env.get_length) width height writable := rfl

/-- The store after the three-input branch. -/
theorem get_image_three_properties (env : Env) (w : World) (a : Frame) (b c : Nat)
    (reverse : Int) (mix inverse softness : ℚ) (width height writable : Int) :
    (get_image_three env w a b c reverse mix inverse softness width height
        writable).world.properties
      = mlt_properties_set_int
          (mlt_properties_set_value
            (mlt_properties_set_double
              (mlt_properties_set
                (mlt_properties_set w.properties "_movit.parms.float.strength_first" none)
                "_movit.parms.float.strength_second" none)
              "_movit.parms.float.progress" (if reverse ≠ 0 then inverse else mix))
            "_movit.parms.float.transition_width" (one_over (softness + 1 / 10000)))
          "_movit.parms.int.inverse"
          (if mlt_properties_get_int env w.properties "invert" = 0 then 1 else 0) := by
  have hinv : mlt_properties_get_int env
      (mlt_properties_set_value
        (mlt_properties_set_double
          (mlt_properties_set
            (mlt_properties_set w.properties "_movit.parms.float.strength_first" none)
            "_movit.parms.float.strength_second" none)
          "_movit.parms.float.progress" (if reverse ≠ 0 then inverse else mix))
        "_movit.parms.float.transition_width" (one_over (softness + 1 / 10000))) "invert"
      = mlt_properties_get_int env w.properties "invert" := by
    simp [mlt_properties_get_int, mlt_properties_set_double, mlt_properties_set,
      mlt_properties_set_value, Props.write]
  unfold get_image_three
  simp only [hinv]
  split_ifs <;> rfl

/-- The store after the two-input branch. -/
theorem get_image_two_properties (env : Env) (w : World) (a : Frame) (b : Nat)
    (reverse : Int) (mix inverse : ℚ) (width height writable : Int) :
    (get_image_two env w a b reverse mix inverse width height writable).world.properties
      = mlt_properties_set_double
          (mlt_properties_set_double
            (mlt_properties_set
              (mlt_properties_set
                (mlt_properties_set w.properties "_movit.parms.int.inverse" none)
                "_movit.parms.float.progress" none)
              "_movit.parms.float.transition_width" none)
            "_movit.parms.float.strength_first" (if reverse ≠ 0 then mix else inverse))
          "_movit.parms.float.strength_second" (if reverse ≠ 0 then inverse else mix) := by
  unfold get_image_two
  dsimp only
  split_ifs <;> rfl

/-- The staging part no longer touches the transition's store. -/
theorem stage_frames_properties (env : Env) (w1 : World) (producer : Option Nat)
    (a : Frame) (b : Nat) :
    (stage_frames env w1 producer a b).1.properties = w1.properties := by
  unfold stage_frames
  dsimp only
  split
  · split_ifs <;> rfl
  · rfl

/-- The staging part calls the factory no more. -/
theorem stage_frames_factory_calls (env : Env) (w1 : World) (producer : Option Nat)
    (a : Frame) (b : Nat) :
    (stage_frames env w1 producer a b).1.factory_calls = w1.factory_calls := by
  unfold stage_frames
  dsimp only
  split
  · split_ifs <;> rfl
  · rfl

/-- The staging part closes no producer. -/
theorem stage_frames_closed (env : Env) (w1 : World) (producer : Option Nat)
    (a : Frame) (b : Nat) :
    (stage_frames env w1 producer a b).1.closed = w1.closed := by
  unfold stage_frames
  dsimp only
  split
  · split_ifs <;> rfl
  · rfl

/-- The staging part leaves the transition's pointer alone. -/
theorem stage_frames_id (env : Env) (w1 : World) (producer : Option Nat)
    (a : Frame) (b : Nat) :
    (stage_frames env w1 producer a b).1.id = w1.id := by
  unfold stage_frames
  dsimp only
  split
  · split_ifs <;> rfl
  · rfl

/-- The frame the staging part returns has the pointer of the primary frame. -/
theorem stage_frames_frame_id (env : Env) (w1 : World) (producer : Option Nat)
    (a : Frame) (b : Nat) :
    (stage_frames env w1 producer a b).2.id = a.id := by
  unfold stage_frames
  dsimp only
  split
  · split_ifs <;> rfl
  · rfl

/-- The primary frame keeps its effect record through the staging part. -/
theorem stage_frames_frame_glsl (env : Env) (w1 : World) (producer : Option Nat)
    (a : Frame) (b : Nat) :
    (stage_frames env w1 producer a b).2.glsl = a.glsl := by
  unfold stage_frames
  dsimp only
  split
  · split_ifs <;> rfl
  · rfl

/-- The stack the staging part leaves: four entries on top of the stack it
found. -/
theorem stage_frames_stack (env : Env) (w1 : World) (producer : Option Nat)
    (a : Frame) (b : Nat) :
    (stage_frames env w1 producer a b).2.stack
      = StackItem.get_image :: StackItem.service w1.id :: StackItem.frame (some b) ::
          StackItem.frame (pattern_slot env w1 producer a) :: a.stack := by
  unfold stage_frames pattern_slot requested_state
  dsimp only
  split
  · split_ifs <;>
      simp [mlt_frame_push_get_image, mlt_frame_push_service, mlt_frame_push_frame]
  · simp [mlt_frame_push_get_image, mlt_frame_push_service, mlt_frame_push_frame]

/-- When the cache step returns, `process` is the staging part run on what it
left. -/
theorem process_of_obtained (env : Env) (w : World) (a : Frame) (b : Nat)
    (w1 : World) (producer : Option Nat)
    (h : obtain_producer env w = some (w1, producer)) :
    process env w a b = some (stage_frames env w1 producer a b) := by
  simp [process, h]

/-- The cache step does not return when `resource` is present, a producer is
cached and `_resource` is null. -/
theorem obtain_producer_null (env : Env) (w : World) (r : String)
    (hres : mlt_properties_get env w.properties "resource" = some r)
    (hinst : mlt_properties_get_data w.properties "instance" ≠ none)
    (hlast : mlt_properties_get env w.properties "_resource" = none) :
    obtain_producer env w = none := by
  unfold obtain_producer
  simp only [hres]
  rw [if_pos ⟨hinst, hlast⟩]

/-- The two-input branch returns the status of the secondary frame's
acquisition, the last one made. -/
theorem get_image_two_error (env : Env) (w : World) (a : Frame) (b : Nat)
    (reverse : Int) (mix inverse : ℚ) (width height writable : Int) :
    (get_image_two env w a b reverse mix inverse width height writable).error
      = (env.frame_get_image b
          (env.frame_get_image a.id env.mlt_image_movit width height writable).format
          (env.frame_get_image a.id env.mlt_image_movit width height writable).width
          (env.frame_get_image a.id env.mlt_image_movit width height writable).height
          writable).status := by
  unfold get_image_two
  dsimp only
  split_ifs <;> rfl

/-- The two-input branch selects the mix effect unless the size left by the
acquisitions is degenerate, in which case the effect record is as before. -/
theorem get_image_two_effect (env : Env) (w : World) (a : Frame) (b : Nat)
    (reverse : Int) (mix inverse : ℚ) (width height writable : Int) :
    (get_image_two env w a b reverse mix inverse width height writable).a_frame.glsl.effect
      = if (get_image_two env w a b reverse mix inverse width height writable).width < 1 ∨
            (get_image_two env w a b reverse mix inverse width height writable).height < 1
        then a.glsl.effect else some Effect.MixEffect := by
  unfold get_image_two
  dsimp only
  split_ifs <;> simp_all

/-- The three-input branch selects the luma-mix effect unless the size left by
the acquisitions is degenerate, in which case the effect record is as before. -/
theorem get_image_three_effect (env : Env) (w : World) (a : Frame) (b c : Nat)
    (reverse : Int) (mix inverse softness : ℚ) (width height writable : Int) :
    (get_image_three env w a b c reverse mix inverse softness width height
        writable).a_frame.glsl.effect
      = if (get_image_three env w a b c reverse mix inverse softness width height
              writable).width < 1 ∨
            (get_image_three env w a b c reverse mix inverse softness width height
              writable).height < 1
        then a.glsl.effect else some Effect.LumaMixEffect := by
  unfold get_image_three
  dsimp only
  split_ifs <;> simp_all

/-- Without a rebuild the cache step changes nothing. -/
theorem obtain_producer_keep (env : Env) (w : World) (r : String)
    (hres : mlt_properties_get env w.properties "resource" = some r)
    (hk : ¬ (mlt_properties_get_data w.properties "instance" = none ∨
      some r ≠ mlt_properties_get env w.properties "_resource")) :
    obtain_producer env w = some (w, mlt_properties_get_data w.properties "instance") := by
  have hnull : ¬ (mlt_properties_get_data w.properties "instance" ≠ none ∧
      mlt_properties_get env w.properties "_resource" = none) := by
    rintro ⟨-, h2⟩
    apply hk
    right
    rw [h2]
    simp
  unfold obtain_producer
  simp only [hres]
  rw [if_neg hnull, if_neg hk]

/-- With no `resource` the cache step changes nothing. -/
theorem obtain_producer_absent (env : Env) (w : World)
    (hres : mlt_properties_get env w.properties "resource" = none) :
    obtain_producer env w = some (w, mlt_properties_get_data w.properties "instance") := by
  unfold obtain_producer
  simp only [hres]

/-- On a rebuild the cache step returns; it records the resource, calls the
factory once, stores what the factory returned and closes the producer stored
before. -/
theorem obtain_producer_rebuild (env : Env) (w : World) (r : String)
    (hres : mlt_properties_get env w.properties "resource" = some r)
    (hrec : mlt_properties_get_data w.properties "instance" ≠ none →
      mlt_properties_get env w.properties "_resource" ≠ none)
    (hb : mlt_properties_get_data w.properties "instance" = none ∨
      some r ≠ mlt_properties_get env w.properties "_resource") :
    ∃ w1, obtain_producer env w = some (w1, (env.factory r).map (fun _ => w.next)) ∧
      w1.id = w.id ∧
      w1.properties
        = ((w.properties.write "_resource" (some (PropValue.str r))).write "instance"
            ((env.factory r).map (fun _ => PropValue.data w.next))) ∧
      w1.factory_calls = r :: w.factory_calls ∧
      w1.closed = (mlt_properties_get_data w.properties "instance").toList ++ w.closed := by
  have hnull : ¬ (mlt_properties_get_data w.properties "instance" ≠ none ∧
      mlt_properties_get env w.properties "_resource" = none) := by
    rintro ⟨h1, h2⟩
    exact hrec h1 h2
  unfold obtain_producer
  simp only [hres]
  rw [if_neg hnull, if_pos hb]
  refine ⟨_, rfl, rfl, ?_, rfl, ?_⟩
  · simp [mlt_properties_set_data, mlt_properties_set, Option.map_map, Function.comp_def]
  · simp [mlt_properties_set_data, mlt_properties_set, mlt_properties_get_data, Props.write]

/-- The cache step returns, and leaves the transition's pointer alone, unless
`resource` is present, a producer is cached and `_resource` is null. -/
theorem obtain_producer_returns (env : Env) (w : World)
    (hrec : mlt_properties_get env w.properties "resource" ≠ none →
      mlt_properties_get_data w.properties "instance" ≠ none →
      mlt_properties_get env w.properties "_resource" ≠ none) :
    ∃ w1 producer, obtain_producer env w = some (w1, producer) ∧ w1.id = w.id := by
  cases hres : mlt_properties_get env w.properties "resource" with
  | none => exact ⟨w, _, obtain_producer_absent env w hres, rfl⟩
  | some r =>
    have hrec' : mlt_properties_get_data w.properties "instance" ≠ none →
        mlt_properties_get env w.properties "_resource" ≠ none :=
      hrec (by rw [hres]; simp)
    by_cases hb : (mlt_properties_get_data w.properties "instance" = none ∨
        some r ≠ mlt_properties_get env w.properties "_resource")
    · obtain ⟨w1, ho, hid, -⟩ := obtain_producer_rebuild env w r hres hrec' hb
      exact ⟨w1, _, ho, hid⟩
    · exact ⟨w, _, obtain_producer_keep env w r hres hb, rfl⟩

/-- The body of `get_image` leaves of the primary frame's stack what the
acquisition of the frame's own image leaves of it. -/
theorem get_image_body_stack (env : Env) (w : World) (a : Frame) (b : Nat) (c : Option Nat)
    (width height writable : Int) :
    (get_image_body env w a b c width height writable).a_frame.stack
      = env.frame_unwind a.id a.stack := by
  cases c with
  | none =>
    rw [get_image_body_none]
    unfold get_image_two
    dsimp only
    split_ifs <;> rfl
  | some cf =>
    rw [get_image_body_some]
    unfold get_image_three
    dsimp only
    split_ifs <;> rfl

/-! ## Claims -/

/-- C5. Mutual exclusivity of the parameter families: for every prior store and
every `get_image` call on a staged stack, whichever branch runs and whatever the
acquisitions report, the call returns and exactly one family is present in the
store afterwards: with no pattern frame the two strengths are present and
progress, transition width and inverse flag are absent; with a pattern frame it
is the reverse. -/
theorem C5_parameter_families_exclusive (env : Env) (w : World) (a : Frame) (b : Nat)
    (c : Option Nat) (S : List StackItem) (width height writable : Int) :
    ∃ r, get_image env w
        { a with stack := StackItem.service w.id :: StackItem.frame (some b) ::
            StackItem.frame c :: S } width height writable = some r ∧
      ((c = none ∧
          r.world.properties "_movit.parms.float.strength_first" ≠ none ∧
          r.world.properties "_movit.parms.float.strength_second" ≠ none ∧
          r.world.properties "_movit.parms.float.progress" = none ∧
          r.world.properties "_movit.parms.float.transition_width" = none ∧
          r.world.properties "_movit.parms.int.inverse" = none) ∨
       (c ≠ none ∧
          r.world.properties "_movit.parms.float.strength_first" = none ∧
          r.world.properties "_movit.parms.float.strength_second" = none ∧
          r.world.properties "_movit.parms.float.progress" ≠ none ∧
          r.world.properties "_movit.parms.float.transition_width" ≠ none ∧
          r.world.properties "_movit.parms.int.inverse" ≠ none)) := by
  refine ⟨_, get_image_staged env w a b c S width height writable, ?_⟩
  cases c with
  | none =>
    left
    simp [get_image_body_none, get_image_two_properties, mlt_properties_set_double, mlt_properties_set,
      Props.write]
  | some cf =>
    right
    simp [get_image_body_some, get_image_three_properties, mlt_properties_set_double, mlt_properties_set,
      mlt_properties_set_int, mlt_properties_set_value, Props.write]

/-- C8. Error locality: every `get_image` call on a staged stack returns, and
whatever it returns (success, failed acquisition, degenerate size) the entries
`instance`, `_resource`, `resource`, `reverse`, `softness` and `invert` of the
store are as before, the producer objects, the construction and destruction
records are as before, and a key whose entry changed is one of the five
`_movit.parms.*` keys. -/
theorem C8_get_image_error_locality (env : Env) (w : World) (a : Frame) (b : Nat)
    (c : Option Nat) (S : List StackItem) (width height writable : Int) :
    ∃ r, get_image env w
        { a with stack := StackItem.service w.id :: StackItem.frame (some b) ::
            StackItem.frame c :: S } width height writable = some r ∧
      r.world.properties "instance" = w.properties "instance" ∧
      r.world.properties "_resource" = w.properties "_resource" ∧
      r.world.properties "resource" = w.properties "resource" ∧
      r.world.properties "reverse" = w.properties "reverse" ∧
      r.world.properties "softness" = w.properties "softness" ∧
      r.world.properties "invert" = w.properties "invert" ∧
      r.world.producers = w.producers ∧
      r.world.next = w.next ∧
      r.world.factory_calls = w.factory_calls ∧
      r.world.closed = w.closed ∧
      (∀ k, r.world.properties k ≠ w.properties k →
        k ∈ ["_movit.parms.float.strength_first", "_movit.parms.float.strength_second",
          "_movit.parms.float.progress", "_movit.parms.float.transition_width",
          "_movit.parms.int.inverse"]) := by
  refine ⟨_, get_image_staged env w a b c S width height writable, ?_⟩
  cases c with
  | none =>
    simp only [get_image_body_none, get_image_two_properties]
    refine ⟨?_, ?_, ?_, ?_, ?_, ?_, ?_, ?_, ?_, ?_, ?_⟩
    all_goals first
      | (simp [mlt_properties_set_double, mlt_properties_set, Props.write,
          mlt_service_lock]; done)
      | (unfold get_image_two; dsimp only; split_ifs <;> rfl)
      | skip
    intro k hk
    by_contra hmem
    simp at hmem
    apply hk
    simp [mlt_properties_set_double, mlt_properties_set, Props.write, mlt_service_lock, hmem]
  | some cf =>
    simp only [get_image_body_some, get_image_three_properties]
    refine ⟨?_, ?_, ?_, ?_, ?_, ?_, ?_, ?_, ?_, ?_, ?_⟩
    all_goals first
      | (simp [mlt_properties_set_double, mlt_properties_set, mlt_properties_set_int,
          mlt_properties_set_value, Props.write, mlt_service_lock]; done)
      | (unfold get_image_three; dsimp only; split_ifs <;> rfl)
      | skip
    intro k hk
    by_contra hmem
    simp at hmem
    apply hk
    simp [mlt_properties_set_double, mlt_properties_set, mlt_properties_set_int,
      mlt_properties_set_value, Props.write, mlt_service_lock, hmem]

/-- C6. Two-input parameter symmetry: for every mix `m` in [0,1], a `get_image`
call without a pattern frame returns and writes `strength_first` and
`strength_second` as (1 - m, m) when `reverse` is 0 and as (m, 1 - m) when
`reverse` is non-zero; in both cases the two sum to 1 and lie in [0,1]. -/
theorem C6_two_input_symmetry (env : Env) (w : World) (a : Frame) (b : Nat)
    (S : List StackItem) (width height writable : Int) (m : ℚ)
    (hm : env.get_progress a.id = m) (h0 : 0 ≤ m) (h1 : m ≤ 1) :
    ∃ r sf ss,
      get_image env w
        { a with stack := StackItem.service w.id :: StackItem.frame (some b) ::
            StackItem.frame none :: S } width height writable = some r ∧
      r.world.properties "_movit.parms.float.strength_first" = some (PropValue.dbl sf) ∧
      r.world.properties "_movit.parms.float.strength_second" = some (PropValue.dbl ss) ∧
      (mlt_properties_get_int env w.properties "reverse" = 0 → sf = 1 - m ∧ ss = m) ∧
      (mlt_properties_get_int env w.properties "reverse" ≠ 0 → sf = m ∧ ss = 1 - m) ∧
      sf + ss = 1 ∧ 0 ≤ sf ∧ sf ≤ 1 ∧ 0 ≤ ss ∧ ss ≤ 1 := by
  refine ⟨_, if mlt_properties_get_int env w.properties "reverse" ≠ 0 then m else 1 - m,
    if mlt_properties_get_int env w.properties "reverse" ≠ 0 then 1 - m else m,
    get_image_staged env w a b none S width height writable, ?_, ?_, ?_, ?_, ?_⟩
  · rw [get_image_body_none, get_image_two_properties]
    simp [mlt_properties_set_double, Props.write, mlt_service_lock, hm]
  · rw [get_image_body_none, get_image_two_properties]
    simp [mlt_properties_set_double, Props.write, mlt_service_lock, hm]
  · intro hr
    simp [hr]
  · intro hr
    simp [hr]
  · by_cases hr : mlt_properties_get_int env w.properties "reverse" = 0
    · simp only [hr, ne_eq, not_true_eq_false, if_false]
      refine ⟨by ring, by linarith, by linarith, h0, h1⟩
    · simp only [hr, ne_eq, not_false_eq_true, if_true]
      refine ⟨by ring, h0, h1, by linarith, by linarith⟩

/-- C6 at scenario A: `resource` is the empty string, `reverse` is unset, and
the position is 50 of length 100, so the mix is 1/2 and both strengths are
1/2. -/
theorem C6_scenario_A :
    ((0 : ℚ) ≤ 1 / 2 ∧ (1 / 2 : ℚ) ≤ 1) ∧
    ∃ r, get_image (sample_env 0 0 0 1920 1080 50 100)
        (sample_world (no_properties.write "resource" (some (PropValue.str ""))))
        (sample_frame [StackItem.service 1, StackItem.frame (some 20), StackItem.frame none])
        1920 1080 0 = some r ∧
      r.world.properties "_movit.parms.float.strength_first" = some (PropValue.dbl (1 / 2)) ∧
      r.world.properties "_movit.parms.float.strength_second"
        = some (PropValue.dbl (1 / 2)) := by
  have hm : (sample_env 0 0 0 1920 1080 50 100).get_progress (sample_frame []).id = 1 / 2 := by
    norm_num [sample_env, transition_progress]
  have hrev : mlt_properties_get_int (sample_env 0 0 0 1920 1080 50 100)
      (sample_world (no_properties.write "resource" (some (PropValue.str "")))).properties
      "reverse" = 0 := by
    simp [mlt_properties_get_int, sample_world, no_properties, Props.write]
  obtain ⟨r, sf, ss, hr, hsf, hss, hrev0, -, -⟩ :=
    C6_two_input_symmetry (sample_env 0 0 0 1920 1080 50 100)
      (sample_world (no_properties.write "resource" (some (PropValue.str ""))))
      (sample_frame []) 20 [] 1920 1080 0 (1 / 2) hm (by norm_num) (by norm_num)
  obtain ⟨e1, e2⟩ := hrev0 hrev
  refine ⟨⟨by norm_num, by norm_num⟩, r, hr, ?_, ?_⟩
  · rw [hsf, e1]
    norm_num
  · rw [hss, e2]

/-- C1, the code at the failing input. Every acquisition reports status 0 and
leaves width 0: in both branches `get_image` logs the invalid size and returns
0, the status of the last acquisition, not an error. -/
theorem C1_degenerate_size_returns_success :
    (∃ r, get_image (sample_env 0 0 0 0 1080 50 100) (sample_world no_properties)
        (sample_frame [StackItem.service 1, StackItem.frame (some 20), StackItem.frame none])
        1920 1080 0 = some r ∧
      r.width = 0 ∧ r.world.log = [(0, 1080)] ∧ r.error = 0) ∧
    (∃ r, get_image (sample_env 0 0 0 0 1080 50 100) (sample_world no_properties)
        (sample_frame [StackItem.service 1, StackItem.frame (some 20),
          StackItem.frame (some 30)]) 1920 1080 0 = some r ∧
      r.width = 0 ∧ r.world.log = [(0, 1080)] ∧ r.error = 0) := by
  constructor
  · refine ⟨_, get_image_staged (sample_env 0 0 0 0 1080 50 100)
      (sample_world no_properties) (sample_frame []) 20 none [] 1920 1080 0, ?_⟩
    rw [get_image_body_none]
    simp [get_image_two, sample_env, sample_world, mlt_service_lock]
  · refine ⟨_, get_image_staged (sample_env 0 0 0 0 1080 50 100)
      (sample_world no_properties) (sample_frame []) 20 (some 30) [] 1920 1080 0, ?_⟩
    rw [get_image_body_some]
    simp [get_image_three, sample_env, sample_world, mlt_service_lock]

/-- C2, the code at the failing input. Two-input branch: the primary frame's
acquisition fails with status 5 and the secondary one succeeds; three-input
branch: the primary fails with 5, the secondary with 3 and the pattern frame
succeeds. Sizes are 1920 x 1080. In both cases `get_image` returns 0: only the
status of the last acquisition survives. -/
theorem C2_earlier_failure_is_lost :
    (∃ r, get_image (sample_env 5 0 0 1920 1080 50 100) (sample_world no_properties)
        (sample_frame [StackItem.service 1, StackItem.frame (some 20), StackItem.frame none])
        1920 1080 0 = some r ∧
      ((sample_env 5 0 0 1920 1080 50 100).frame_get_image 10 7 1920 1080 0).status = 5 ∧
      r.error = 0) ∧
    (∃ r, get_image (sample_env 5 3 0 1920 1080 50 100) (sample_world no_properties)
        (sample_frame [StackItem.service 1, StackItem.frame (some 20),
          StackItem.frame (some 30)]) 1920 1080 0 = some r ∧
      ((sample_env 5 3 0 1920 1080 50 100).frame_get_image 10 7 1920 1080 0).status = 5 ∧
      r.error = 0) := by
  constructor
  · refine ⟨_, get_image_staged (sample_env 5 0 0 1920 1080 50 100)
      (sample_world no_properties) (sample_frame []) 20 none [] 1920 1080 0, ?_⟩
    rw [get_image_body_none]
    simp [get_image_two, sample_env]
  · refine ⟨_, get_image_staged (sample_env 5 3 0 1920 1080 50 100)
      (sample_world no_properties) (sample_frame []) 20 (some 30) [] 1920 1080 0, ?_⟩
    rw [get_image_body_some]
    simp [get_image_three, sample_env]

/-- C10, the code at the failing input. The lock is free (hold count 0) and the
acquisitions leave width 0: in both branches `get_image` returns through the
size check without `mlt_service_unlock`, so the hold count is 1 afterwards;
with a valid size it is 0 again. -/
theorem C10_lock_kept_on_degenerate_size :
    (sample_world no_properties).lock = 0 ∧
    (∃ r, get_image (sample_env 0 0 0 0 1080 50 100) (sample_world no_properties)
        (sample_frame [StackItem.service 1, StackItem.frame (some 20), StackItem.frame none])
        1920 1080 0 = some r ∧ r.world.lock = 1) ∧
    (∃ r, get_image (sample_env 0 0 0 0 1080 50 100) (sample_world no_properties)
        (sample_frame [StackItem.service 1, StackItem.frame (some 20),
          StackItem.frame (some 30)]) 1920 1080 0 = some r ∧ r.world.lock = 1) ∧
    (∃ r, get_image (sample_env 0 0 0 1920 1080 50 100) (sample_world no_properties)
        (sample_frame [StackItem.service 1, StackItem.frame (some 20), StackItem.frame none])
        1920 1080 0 = some r ∧ r.world.lock = 0) := by
  refine ⟨rfl, ?_, ?_, ?_⟩
  · refine ⟨_, get_image_staged (sample_env 0 0 0 0 1080 50 100)
      (sample_world no_properties) (sample_frame []) 20 none [] 1920 1080 0, ?_⟩
    rw [get_image_body_none]
    simp [get_image_two, sample_env, sample_world, mlt_service_lock]
  · refine ⟨_, get_image_staged (sample_env 0 0 0 0 1080 50 100)
      (sample_world no_properties) (sample_frame []) 20 (some 30) [] 1920 1080 0, ?_⟩
    rw [get_image_body_some]
    simp [get_image_three, sample_env, sample_world, mlt_service_lock]
  · refine ⟨_, get_image_staged (sample_env 0 0 0 1920 1080 50 100)
      (sample_world no_properties) (sample_frame []) 20 none [] 1920 1080 0, ?_⟩
    rw [get_image_body_none]
    simp [get_image_two, sample_env, sample_world, mlt_service_lock, mlt_service_unlock]

/-- C9, as amended. LIFO staging round trip: for every transition in which
`_resource` is recorded whenever `resource` is present and a producer is
cached, every primary frame with an arbitrary stack `S` and every secondary
frame `b`, `process` returns, returns the primary frame, and on every path
pushes exactly four entries, in the order pattern frame or null, `b`, the
transition, the callback. Once the callback is popped, `get_image` pops the
transition, then `b`, then the staged pattern value, and runs its body on
exactly these with the stack equal to `S`; at its return the stack is what the
acquisition of the primary frame's own image has left of `S`. -/
theorem C9_lifo_round_trip (env : Env) (w : World) (a : Frame) (b : Nat)
    (width height writable : Int)
    (hrec : mlt_properties_get env w.properties "resource" ≠ none →
      mlt_properties_get_data w.properties "instance" ≠ none →
      mlt_properties_get env w.properties "_resource" ≠ none) :
    ∃ w1 producer w' a',
      obtain_producer env w = some (w1, producer) ∧
      process env w a b = some (w', a') ∧
      a'.id = a.id ∧
      w'.id = w.id ∧
      a'.stack
        = StackItem.get_image :: StackItem.service w.id :: StackItem.frame (some b) ::
            StackItem.frame (pattern_slot env w1 producer a) :: a.stack ∧
      ∃ a1 a2 a3 a4,
        mlt_frame_pop_get_image a' = some a1 ∧
        mlt_frame_pop_service a1 = some (w.id, a2) ∧
        mlt_frame_pop_frame a2 = some (some b, a3) ∧
        mlt_frame_pop_frame a3 = some (pattern_slot env w1 producer a, a4) ∧
        a4.stack = a.stack ∧
        get_image env w' a1 width height writable
          = some (get_image_body env w' a4 b (pattern_slot env w1 producer a)
              width height writable) ∧
        (get_image_body env w' a4 b (pattern_slot env w1 producer a)
            width height writable).a_frame.stack = env.frame_unwind a.id a.stack := by
  obtain ⟨w1, producer, ho, hid1⟩ := obtain_producer_returns env w hrec
  have hst := stage_frames_stack env w1 producer a b
  have hid := stage_frames_id env w1 producer a b
  have hfid := stage_frames_frame_id env w1 producer a b
  rw [hid1] at hst hid
  refine ⟨w1, producer, (stage_frames env w1 producer a b).1,
    (stage_frames env w1 producer a b).2, ho, process_of_obtained env w a b w1 producer ho,
    hfid, hid, hst, ?_⟩
  revert hst hid hfid
  generalize stage_frames env w1 producer a b = pr
  intro hst hid hfid
  refine ⟨{ pr.2 with
              stack := StackItem.service w.id :: StackItem.frame (some b) ::
                StackItem.frame (pattern_slot env w1 producer a) :: a.stack },
          { pr.2 with
              stack := StackItem.frame (some b) ::
                StackItem.frame (pattern_slot env w1 producer a) :: a.stack },
          { pr.2 with stack := StackItem.frame (pattern_slot env w1 producer a) :: a.stack },
          { pr.2 with stack := a.stack }, ?_, ?_, ?_, ?_, rfl, ?_, ?_⟩
  · simp [mlt_frame_pop_get_image, hst]
  · simp [mlt_frame_pop_service]
  · simp [mlt_frame_pop_frame]
  · simp [mlt_frame_pop_frame]
  · exact get_image_of_stack env pr.1 _ b (pattern_slot env w1 producer a)
      a.stack width height writable (by simp [hid])
  · rw [get_image_body_stack]
    simp [hfid]

/-- C9 as amended, at a concrete state: no `resource`, nothing cached, and one
earlier callback staged on the primary frame. -/
theorem C9_lifo_round_trip_witness :
    ∃ w' a',
      process (sample_env 0 0 0 1920 1080 50 100) (sample_world no_properties)
        (sample_frame [StackItem.get_image]) 20 = some (w', a') ∧
      a'.stack = [StackItem.get_image, StackItem.service 1, StackItem.frame (some 20),
        StackItem.frame none, StackItem.get_image] := by
  obtain ⟨w1, producer, w', a', ho, hp, -, -, hst, -⟩ :=
    C9_lifo_round_trip (sample_env 0 0 0 1920 1080 50 100) (sample_world no_properties)
      (sample_frame [StackItem.get_image]) 20 1920 1080 0
      (fun h => absurd rfl h)
  have ho' := obtain_producer_absent (sample_env 0 0 0 1920 1080 50 100)
    (sample_world no_properties) rfl
  rw [ho'] at ho
  simp only [Option.some.injEq, Prod.mk.injEq] at ho
  obtain ⟨-, rfl⟩ := ho
  refine ⟨w', a', hp, ?_⟩
  rw [hst]
  rfl

/-- C9 as stated fails. First, with `resource` "wipe.pgm", a producer cached
and no `_resource`, `process` compares `resource` with a null string and does
not return, so nothing is pushed. Second, with an earlier callback staged on
the primary frame, the stack at the return of `get_image` is what the
acquisition of the primary frame's own image left, here nothing, not `S`. -/
theorem C9_round_trip_counterexample :
    (mlt_properties_get (sample_env 0 0 0 1920 1080 50 100)
        (sample_world unrecorded_properties).properties "resource" = some "wipe.pgm" ∧
      mlt_properties_get_data (sample_world unrecorded_properties).properties "instance"
        = some 7 ∧
      mlt_properties_get (sample_env 0 0 0 1920 1080 50 100)
        (sample_world unrecorded_properties).properties "_resource" = none ∧
      process (sample_env 0 0 0 1920 1080 50 100) (sample_world unrecorded_properties)
        (sample_frame [StackItem.get_image]) 20 = none) ∧
    (∃ r, get_image (sample_env 0 0 0 1920 1080 50 100) (sample_world no_properties)
        (sample_frame [StackItem.service 1, StackItem.frame (some 20), StackItem.frame none,
          StackItem.get_image]) 1920 1080 0 = some r ∧
      r.a_frame.stack = [] ∧ r.a_frame.stack ≠ [StackItem.get_image]) := by
  have h1 : mlt_properties_get (sample_env 0 0 0 1920 1080 50 100)
      (sample_world unrecorded_properties).properties "resource" = some "wipe.pgm" := by
    simp [mlt_properties_get, sample_world, unrecorded_properties, Props.write]
  have h2 : mlt_properties_get_data (sample_world unrecorded_properties).properties
      "instance" = some 7 := by
    simp [mlt_properties_get_data, sample_world, unrecorded_properties, Props.write]
  have h3 : mlt_properties_get (sample_env 0 0 0 1920 1080 50 100)
      (sample_world unrecorded_properties).properties "_resource" = none := by
    simp [mlt_properties_get, sample_world, unrecorded_properties, no_properties,
      Props.write]
  refine ⟨⟨h1, h2, h3, ?_⟩, ?_⟩
  · have ho := obtain_producer_null (sample_env 0 0 0 1920 1080 50 100)
      (sample_world unrecorded_properties) "wipe.pgm" h1 (by rw [h2]; simp) h3
    simp [process, ho]
  · refine ⟨_, get_image_staged (sample_env 0 0 0 1920 1080 50 100)
      (sample_world no_properties) (sample_frame []) 20 none [StackItem.get_image]
      1920 1080 0, ?_⟩
    rw [get_image_body_stack]
    simp [sample_env]

/-- C4, as amended. Pattern-producer cache rule: for every transition state in
which `resource` is present and `_resource` is recorded whenever a producer is
cached, `process` returns, and it calls the producer factory if and only if no
producer is cached under `instance` or `resource` differs from the recorded
`_resource`. When it does, it calls the factory once, records `resource` in
`_resource`, stores what the factory returned under `instance` and closes the
producer stored before exactly once. Otherwise `instance`, `_resource`, the
factory record and the close record are unchanged. Consequently a further
`process` call on the resulting state, in which a producer is cached, returns,
finds the same producer instance and constructs and closes nothing. -/
theorem C4_producer_cache_rule (env : Env) (w : World) (a : Frame) (b : Nat) (r : String)
    (hres : mlt_properties_get env w.properties "resource" = some r)
    (hrec : mlt_properties_get_data w.properties "instance" ≠ none →
      mlt_properties_get env w.properties "_resource" ≠ none) :
    ∃ w' a', process env w a b = some (w', a') ∧
      ((mlt_properties_get_data w.properties "instance" = none ∨
          some r ≠ mlt_properties_get env w.properties "_resource") →
        w'.factory_calls = r :: w.factory_calls ∧
        mlt_properties_get env w'.properties "_resource" = some r ∧
        mlt_properties_get_data w'.properties "instance"
          = (env.factory r).map (fun _ => w.next) ∧
        w'.closed = (mlt_properties_get_data w.properties "instance").toList ++ w.closed) ∧
      (¬ (mlt_properties_get_data w.properties "instance" = none ∨
          some r ≠ mlt_properties_get env w.properties "_resource") →
        w'.factory_calls = w.factory_calls ∧
        w'.properties "instance" = w.properties "instance" ∧
        w'.properties "_resource" = w.properties "_resource" ∧
        w'.closed = w.closed) ∧
      (∀ (a2 : Frame) (b2 : Nat),
        mlt_properties_get_data w'.properties "instance" ≠ none →
        ∃ w'' a'', process env w' a2 b2 = some (w'', a'') ∧
          w''.factory_calls = w'.factory_calls ∧
          w''.properties "instance" = w'.properties "instance" ∧
          w''.properties "_resource" = w'.properties "_resource" ∧
          w''.closed = w'.closed) := by
  have hkeep : ∀ (w0 : World) (a0 : Frame) (b0 : Nat),
      mlt_properties_get env w0.properties "resource" = some r →
      ¬ (mlt_properties_get_data w0.properties "instance" = none ∨
        some r ≠ mlt_properties_get env w0.properties "_resource") →
      ∃ w' a', process env w0 a0 b0 = some (w', a') ∧
        w'.properties = w0.properties ∧
        w'.factory_calls = w0.factory_calls ∧
        w'.properties "instance" = w0.properties "instance" ∧
        w'.properties "_resource" = w0.properties "_resource" ∧
        w'.closed = w0.closed := by
    intro w0 a0 b0 h0 hk
    have hp := process_of_obtained env w0 a0 b0 w0 _ (obtain_producer_keep env w0 r h0 hk)
    refine ⟨(stage_frames env w0 (mlt_properties_get_data w0.properties "instance") a0 b0).1,
      (stage_frames env w0 (mlt_properties_get_data w0.properties "instance") a0 b0).2,
      hp, ?_, ?_, ?_, ?_, ?_⟩
    · exact stage_frames_properties env w0 _ a0 b0
    · exact stage_frames_factory_calls env w0 _ a0 b0
    · rw [stage_frames_properties]
    · rw [stage_frames_properties]
    · exact stage_frames_closed env w0 _ a0 b0
  by_cases hb : (mlt_properties_get_data w.properties "instance" = none ∨
      some r ≠ mlt_properties_get env w.properties "_resource")
  · obtain ⟨w1, ho, -, hp1, hf1, hc1⟩ := obtain_producer_rebuild env w r hres hrec hb
    have hp := process_of_obtained env w a b w1 _ ho
    have hprops : (stage_frames env w1 ((env.factory r).map (fun _ => w.next)) a b).1.properties
        = ((w.properties.write "_resource" (some (PropValue.str r))).write "instance"
            ((env.factory r).map (fun _ => PropValue.data w.next))) := by
      rw [stage_frames_properties, hp1]
    refine ⟨(stage_frames env w1 ((env.factory r).map (fun _ => w.next)) a b).1,
      (stage_frames env w1 ((env.factory r).map (fun _ => w.next)) a b).2,
      hp, ?_, fun hk => absurd hb hk, ?_⟩
    · intro _
      rw [stage_frames_factory_calls, stage_frames_closed, hprops]
      refine ⟨hf1, ?_, ?_, hc1⟩
      · simp [mlt_properties_get, Props.write]
      · cases env.factory r <;> simp [mlt_properties_get_data, Props.write]
    · intro a2 b2 hinst
      have hres' : mlt_properties_get env
          (stage_frames env w1 ((env.factory r).map (fun _ => w.next)) a b).1.properties
          "resource" = some r := by
        rw [hprops]
        simpa [mlt_properties_get, Props.write] using hres
      have hk' : ¬ (mlt_properties_get_data
          (stage_frames env w1 ((env.factory r).map (fun _ => w.next)) a b).1.properties
            "instance" = none ∨
          some r ≠ mlt_properties_get env
            (stage_frames env w1 ((env.factory r).map (fun _ => w.next)) a b).1.properties
            "_resource") := by
        rintro (hcon | hcon)
        · exact hinst hcon
        · apply hcon
          rw [hprops]
          simp [mlt_properties_get, Props.write]
      obtain ⟨w'', a'', h1, -, h2, h3, h4, h5⟩ := hkeep _ a2 b2 hres' hk'
      exact ⟨w'', a'', h1, h2, h3, h4, h5⟩
  · obtain ⟨w', a', hp, hprops, h2, h3, h4, h5⟩ := hkeep w a b hres hb
    refine ⟨w', a', hp, fun hk => absurd hk hb, fun _ => ⟨h2, h3, h4, h5⟩, ?_⟩
    intro a2 b2 _
    have hres' : mlt_properties_get env w'.properties "resource" = some r := by
      rw [hprops]
      exact hres
    have hk' : ¬ (mlt_properties_get_data w'.properties "instance" = none ∨
        some r ≠ mlt_properties_get env w'.properties "_resource") := by
      rw [hprops]
      exact hb
    obtain ⟨w'', a'', h1, -, k2, k3, k4, k5⟩ := hkeep w' a2 b2 hres' hk'
    exact ⟨w'', a'', h1, k2, k3, k4, k5⟩

/-- C4 as amended, at a concrete state: `resource` is "wipe.pgm" and nothing is
cached, so the first `process` call builds a producer and a second one reuses
it. -/
theorem C4_producer_cache_rule_witness :
    mlt_properties_get (sample_env 0 0 0 1920 1080 0 100) (sample_world
        scenario_B_properties).properties "resource" = some "wipe.pgm" ∧
    mlt_properties_get_data (sample_world scenario_B_properties).properties "instance"
      = none ∧
    ∃ w' a', process (sample_env 0 0 0 1920 1080 0 100) (sample_world scenario_B_properties)
        (sample_frame []) 20 = some (w', a') ∧
      w'.factory_calls = ["wipe.pgm"] ∧
      mlt_properties_get_data w'.properties "instance" = some 0 ∧
      ∀ (a2 : Frame) (b2 : Nat),
        ∃ w'' a'', process (sample_env 0 0 0 1920 1080 0 100) w' a2 b2 = some (w'', a'') ∧
          w''.factory_calls = ["wipe.pgm"] ∧
          w''.properties "instance" = w'.properties "instance" := by
  have hres : mlt_properties_get (sample_env 0 0 0 1920 1080 0 100) (sample_world
      scenario_B_properties).properties "resource" = some "wipe.pgm" := by
    simp [mlt_properties_get, sample_world, scenario_B_properties, Props.write]
  have hnone : mlt_properties_get_data (sample_world scenario_B_properties).properties
      "instance" = none := by
    simp [mlt_properties_get_data, sample_world, scenario_B_properties, Props.write,
      no_properties]
  obtain ⟨w', a', hp, h1, -, h3⟩ :=
    C4_producer_cache_rule (sample_env 0 0 0 1920 1080 0 100)
      (sample_world scenario_B_properties) (sample_frame []) 20 "wipe.pgm" hres
      (fun h => absurd hnone h)
  obtain ⟨hcalls, -, hinst, -⟩ := h1 (Or.inl hnone)
  have hcalls' : w'.factory_calls = ["wipe.pgm"] := by
    rw [hcalls]
    rfl
  have hinst' : mlt_properties_get_data w'.properties "instance" = some 0 := by
    rw [hinst]
    simp [sample_env, sample_world]
  refine ⟨hres, hnone, w', a', hp, hcalls', hinst', ?_⟩
  intro a2 b2
  obtain ⟨w'', a'', k1, k2, k3, -, -⟩ := h3 a2 b2 (by rw [hinst']; simp)
  exact ⟨w'', a'', k1, by rw [k2, hcalls'], k3⟩

/-- C4 as stated fails: `resource` is "wipe.pgm" and differs from the recorded
`_resource`, which is null, while a producer is cached. The claim has `process`
construct a new producer there; the code compares `resource` with the null
string first and does not return, so no factory call is made and nothing is
recorded. -/
theorem C4_null_record_counterexample :
    mlt_properties_get (sample_env 0 0 0 1920 1080 0 100)
        (sample_world unrecorded_properties).properties "resource" = some "wipe.pgm" ∧
    mlt_properties_get_data (sample_world unrecorded_properties).properties "instance"
      = some 7 ∧
    mlt_properties_get (sample_env 0 0 0 1920 1080 0 100)
        (sample_world unrecorded_properties).properties "_resource" = none ∧
    process (sample_env 0 0 0 1920 1080 0 100) (sample_world unrecorded_properties)
        (sample_frame []) 20 = none := by
  have h1 : mlt_properties_get (sample_env 0 0 0 1920 1080 0 100)
      (sample_world unrecorded_properties).properties "resource" = some "wipe.pgm" := by
    simp [mlt_properties_get, sample_world, unrecorded_properties, Props.write]
  have h2 : mlt_properties_get_data (sample_world unrecorded_properties).properties
      "instance" = some 7 := by
    simp [mlt_properties_get_data, sample_world, unrecorded_properties, Props.write]
  have h3 : mlt_properties_get (sample_env 0 0 0 1920 1080 0 100)
      (sample_world unrecorded_properties).properties "_resource" = none := by
    simp [mlt_properties_get, sample_world, unrecorded_properties, no_properties,
      Props.write]
  have ho := obtain_producer_null (sample_env 0 0 0 1920 1080 0 100)
    (sample_world unrecorded_properties) "wipe.pgm" h1 (by rw [h2]; simp) h3
  exact ⟨h1, h2, h3, by simp [process, ho]⟩

/-- C3, as amended. Graceful degradation: for every transition state in which
`_resource` is recorded whenever `resource` is present and a producer is
cached, and every pair of input frames: if `resource` is absent and no producer
is cached, or a producer has to be built (none is cached, or `resource` differs
from `_resource`) and the factory fails, or the producer `process` asks does
not return a frame (non-zero status or a null frame), then `process` returns
and stages the null pointer in the pattern slot; the following `get_image`
returns, takes the two-input branch (it writes both strengths, clears progress,
transition width and inverse flag, and selects the mix effect unless the size
left is degenerate), and its result is an error only if an image acquisition or
the size check fails. -/
theorem C3_graceful_degradation (env : Env) (w : World) (a : Frame) (b : Nat)
    (width height writable : Int)
    (hrec : mlt_properties_get env w.properties "resource" ≠ none →
      mlt_properties_get_data w.properties "instance" ≠ none →
      mlt_properties_get env w.properties "_resource" ≠ none)
    (h : (mlt_properties_get env w.properties "resource" = none ∧
            mlt_properties_get_data w.properties "instance" = none) ∨
         (∃ r, mlt_properties_get env w.properties "resource" = some r ∧
            (mlt_properties_get_data w.properties "instance" = none ∨
              some r ≠ mlt_properties_get env w.properties "_resource") ∧
            env.factory r = none) ∨
         (∀ w1 p, obtain_producer env w = some (w1, some p) →
            (env.service_get_frame p (requested_state env w1 a p)).1 ≠ 0 ∨
            (env.service_get_frame p (requested_state env w1 a p)).2 = none)) :
    ∃ w' a' a1 r,
      process env w a b = some (w', a') ∧
      a'.stack
        = StackItem.get_image :: StackItem.service w.id :: StackItem.frame (some b) ::
            StackItem.frame none :: a.stack ∧
      mlt_frame_pop_get_image a' = some a1 ∧
      get_image env w' a1 width height writable = some r ∧
      r.world.properties "_movit.parms.float.strength_first"
        = some (PropValue.dbl
            (if mlt_properties_get_int env w'.properties "reverse" ≠ 0
              then env.get_progress a.id else 1 - env.get_progress a.id)) ∧
      r.world.properties "_movit.parms.float.strength_second"
        = some (PropValue.dbl
            (if mlt_properties_get_int env w'.properties "reverse" ≠ 0
              then 1 - env.get_progress a.id else env.get_progress a.id)) ∧
      r.world.properties "_movit.parms.float.progress" = none ∧
      r.world.properties "_movit.parms.float.transition_width" = none ∧
      r.world.properties "_movit.parms.int.inverse" = none ∧
      r.a_frame.glsl.effect
        = (if r.width < 1 ∨ r.height < 1 then a.glsl.effect else some Effect.MixEffect) ∧
      (r.error ≠ 0 →
        (env.frame_get_image a.id env.mlt_image_movit width height writable).status ≠ 0 ∨
        (env.frame_get_image b
          (env.frame_get_image a.id env.mlt_image_movit width height writable).format
          (env.frame_get_image a.id env.mlt_image_movit width height writable).width
          (env.frame_get_image a.id env.mlt_image_movit width height writable).height
          writable).status ≠ 0 ∨
        r.width < 1 ∨ r.height < 1) := by
  obtain ⟨w1, producer, ho, hid1⟩ := obtain_producer_returns env w hrec
  have hslot : pattern_slot env w1 producer a = none := by
    rcases h with ⟨hres, hinst⟩ | ⟨r, hres, hb, hf⟩ | hfail
    · rw [obtain_producer_absent env w hres] at ho
      simp only [Option.some.injEq, Prod.mk.injEq] at ho
      rw [← ho.2, hinst]
      rfl
    · obtain ⟨w2, ho2, -⟩ := obtain_producer_rebuild env w r hres
        (hrec (by rw [hres]; simp)) hb
      rw [ho2, hf] at ho
      simp only [Option.map_none', Option.some.injEq, Prod.mk.injEq] at ho
      rw [← ho.2]
      rfl
    · cases producer with
      | none => rfl
      | some q =>
        unfold pattern_slot
        dsimp only
        rcases hfail w1 q ho with h1 | h2
        · rw [if_neg h1]
        · rw [h2]
          split_ifs <;> rfl
  have hst := stage_frames_stack env w1 producer a b
  have hid := stage_frames_id env w1 producer a b
  have hfid := stage_frames_frame_id env w1 producer a b
  have hglsl := stage_frames_frame_glsl env w1 producer a b
  have hp := process_of_obtained env w a b w1 producer ho
  rw [hslot, hid1] at hst
  rw [hid1] at hid
  revert hst hid hfid hglsl hp
  generalize stage_frames env w1 producer a b = pr
  intro hst hid hfid hglsl hp
  refine ⟨pr.1, pr.2,
    { pr.2 with
      stack := StackItem.service w.id :: StackItem.frame (some b) ::
        StackItem.frame none :: a.stack },
    get_image_body env pr.1 { pr.2 with stack := a.stack } b none width height writable,
    hp, hst, ?_, ?_, ?_⟩
  · simp [mlt_frame_pop_get_image, hst]
  · exact get_image_of_stack env pr.1 _ b none a.stack width height writable
      (by simp [hid])
  · rw [get_image_body_none, get_image_two_properties, get_image_two_effect,
      get_image_two_error]
    refine ⟨?_, ?_, ?_, ?_, ?_, ?_, ?_⟩
    · simp [hfid, mlt_properties_set_double, mlt_properties_set, Props.write,
        mlt_service_lock]
    · simp [hfid, mlt_properties_set_double, mlt_properties_set, Props.write,
        mlt_service_lock]
    · simp [mlt_properties_set_double, mlt_properties_set, Props.write, mlt_service_lock]
    · simp [mlt_properties_set_double, mlt_properties_set, Props.write, mlt_service_lock]
    · simp [mlt_properties_set_double, mlt_properties_set, Props.write, mlt_service_lock]
    · simp [hglsl]
    · intro he
      right
      left
      simpa [hfid] using he

/-- C3 as amended, at a concrete state: no `resource`, nothing cached. -/
theorem C3_graceful_degradation_witness :
    (mlt_properties_get (sample_env 0 0 0 1920 1080 50 100)
        (sample_world no_properties).properties "resource" = none ∧
      mlt_properties_get_data (sample_world no_properties).properties "instance" = none) ∧
    ∃ w' a', process (sample_env 0 0 0 1920 1080 50 100) (sample_world no_properties)
        (sample_frame []) 20 = some (w', a') ∧
      a'.stack = [StackItem.get_image, StackItem.service 1, StackItem.frame (some 20),
        StackItem.frame none] := by
  obtain ⟨w', a', -, -, hp, hst, -⟩ :=
    C3_graceful_degradation (sample_env 0 0 0 1920 1080 50 100) (sample_world no_properties)
      (sample_frame []) 20 1920 1080 0 (fun h => absurd rfl h) (Or.inl ⟨rfl, rfl⟩)
  exact ⟨⟨rfl, rfl⟩, w', a', hp, hst⟩

/-- C3 as stated fails, in three ways. (1) `resource` is absent, but a producer
cached by an earlier call is still asked for a frame and returns frame 30, so
`process` stages frame 30 and the following `get_image` takes the three-input
branch. (2) `resource` is the empty string, a non-null pointer: it goes to the
factory like any other, and when the factory builds a producer from it that
returns frame 30, frame 30 is staged. (3) No producer returns a frame, but
`resource` is present, a producer is cached and `_resource` is null: `process`
does not return, so nothing is staged. -/
theorem C3_degradation_counterexample :
    (mlt_properties_get (sample_env 0 0 0 1920 1080 50 100)
        (sample_world cached_properties).properties "resource" = none ∧
      ∃ w' a' a1 r,
        process (sample_env 0 0 0 1920 1080 50 100) (sample_world cached_properties)
          (sample_frame []) 20 = some (w', a') ∧
        a'.stack = [StackItem.get_image, StackItem.service 1, StackItem.frame (some 20),
          StackItem.frame (some 30)] ∧
        mlt_frame_pop_get_image a' = some a1 ∧
        get_image (sample_env 0 0 0 1920 1080 50 100) w' a1 1920 1080 0 = some r ∧
        r.error = 0 ∧
        r.a_frame.glsl.effect = some Effect.LumaMixEffect ∧
        r.world.properties "_movit.parms.float.strength_first" = none ∧
        r.world.properties "_movit.parms.float.strength_second" = none) ∧
    (mlt_properties_get any_factory_env
        (sample_world (no_properties.write "resource" (some (PropValue.str "")))).properties
        "resource" = some "" ∧
      ∃ w' a',
        process any_factory_env
          (sample_world (no_properties.write "resource" (some (PropValue.str ""))))
          (sample_frame []) 20 = some (w', a') ∧
        a'.stack = [StackItem.get_image, StackItem.service 1, StackItem.frame (some 20),
          StackItem.frame (some 30)]) ∧
    ((∀ p st, (no_frame_env.service_get_frame p st).1 ≠ 0) ∧
      process no_frame_env (sample_world unrecorded_properties) (sample_frame []) 20
        = none) := by
  refine ⟨?_, ?_, ?_⟩
  · have hres : mlt_properties_get (sample_env 0 0 0 1920 1080 50 100)
        (sample_world cached_properties).properties "resource" = none := by
      simp [mlt_properties_get, sample_world, cached_properties, no_properties, Props.write]
    have ho := obtain_producer_absent (sample_env 0 0 0 1920 1080 50 100)
      (sample_world cached_properties) hres
    have hinst : mlt_properties_get_data (sample_world cached_properties).properties
        "instance" = some 7 := by
      simp [mlt_properties_get_data, sample_world, cached_properties, Props.write]
    rw [hinst] at ho
    have hp := process_of_obtained (sample_env 0 0 0 1920 1080 50 100)
      (sample_world cached_properties) (sample_frame []) 20 _ _ ho
    have hst := stage_frames_stack (sample_env 0 0 0 1920 1080 50 100)
      (sample_world cached_properties) (some 7) (sample_frame []) 20
    have hid := stage_frames_id (sample_env 0 0 0 1920 1080 50 100)
      (sample_world cached_properties) (some 7) (sample_frame []) 20
    have hslot : pattern_slot (sample_env 0 0 0 1920 1080 50 100)
        (sample_world cached_properties) (some 7) (sample_frame []) = some 30 := by
      simp [pattern_slot, sample_env]
    rw [hslot] at hst
    refine ⟨hres, ?_⟩
    revert hp hst hid
    generalize stage_frames (sample_env 0 0 0 1920 1080 50 100)
      (sample_world cached_properties) (some 7) (sample_frame []) 20 = pr
    intro hp hst hid
    refine ⟨pr.1, pr.2,
      { pr.2 with
        stack := [StackItem.service 1, StackItem.frame (some 20), StackItem.frame (some 30)] },
      get_image_body (sample_env 0 0 0 1920 1080 50 100) pr.1 { pr.2 with stack := [] }
        20 (some 30) 1920 1080 0, hp, hst, ?_, ?_, ?_⟩
    · rw [mlt_frame_pop_get_image, hst]
      rfl
    · exact get_image_of_stack (sample_env 0 0 0 1920 1080 50 100) pr.1
        { pr.2 with
          stack := [StackItem.service 1, StackItem.frame (some 20),
            StackItem.frame (some 30)] }
        20 (some 30) [] 1920 1080 0 (by rw [hid]; rfl)
    · rw [get_image_body_some, get_image_three_properties, get_image_three_effect]
      refine ⟨?_, ?_, ?_, ?_⟩
      · simp [get_image_three, sample_env]
      · simp [get_image_three, sample_env]
      · simp [mlt_properties_set_double, mlt_properties_set, mlt_properties_set_int,
          mlt_properties_set_value, Props.write]
      · simp [mlt_properties_set_double, mlt_properties_set, mlt_properties_set_int,
          mlt_properties_set_value, Props.write]
  · have hres : mlt_properties_get any_factory_env
        (sample_world (no_properties.write "resource" (some (PropValue.str "")))).properties
        "resource" = some "" := by
      simp [mlt_properties_get, sample_world, Props.write]
    have hnone : mlt_properties_get_data
        (sample_world (no_properties.write "resource" (some (PropValue.str "")))).properties
        "instance" = none := by
      simp [mlt_properties_get_data, sample_world, no_properties, Props.write]
    obtain ⟨w1, ho, hid1, -⟩ := obtain_producer_rebuild any_factory_env
      (sample_world (no_properties.write "resource" (some (PropValue.str "")))) ""
      hres (fun h => absurd hnone h) (Or.inl hnone)
    have hp := process_of_obtained any_factory_env
      (sample_world (no_properties.write "resource" (some (PropValue.str ""))))
      (sample_frame []) 20 _ _ ho
    have hst := stage_frames_stack any_factory_env w1
      ((any_factory_env.factory "").map (fun _ =>
        (sample_world (no_properties.write "resource" (some (PropValue.str "")))).next))
      (sample_frame []) 20
    rw [hid1] at hst
    refine ⟨hres, (stage_frames any_factory_env w1
      ((any_factory_env.factory "").map (fun _ =>
        (sample_world (no_properties.write "resource" (some (PropValue.str "")))).next))
      (sample_frame []) 20).1, (stage_frames any_factory_env w1
      ((any_factory_env.factory "").map (fun _ =>
        (sample_world (no_properties.write "resource" (some (PropValue.str "")))).next))
      (sample_frame []) 20).2, hp, ?_⟩
    rw [hst]
    simp [pattern_slot, any_factory_env, sample_env, sample_world, sample_frame]
  · refine ⟨fun p st => by simp [no_frame_env], ?_⟩
    have h1 : mlt_properties_get no_frame_env
        (sample_world unrecorded_properties).properties "resource" = some "wipe.pgm" := by
      simp [mlt_properties_get, sample_world, unrecorded_properties, Props.write]
    have h2 : mlt_properties_get_data (sample_world unrecorded_properties).properties
        "instance" ≠ none := by
      simp [mlt_properties_get_data, sample_world, unrecorded_properties, Props.write]
    have h3 : mlt_properties_get no_frame_env
        (sample_world unrecorded_properties).properties "_resource" = none := by
      simp [mlt_properties_get, sample_world, unrecorded_properties, no_properties,
        Props.write]
    have ho := obtain_producer_null no_frame_env (sample_world unrecorded_properties)
      "wipe.pgm" h1 h2 h3
    simp [process, ho]

/-- C7, as amended. Three-input parameter derivation, in exact rational
arithmetic: for every mix `m`, softness `s` and values of `reverse` and
`invert`, a `get_image` call with a pattern frame present returns and writes
progress = (reverse ? 1 - m : m), transition width = 1 / (s + 1/10000) when
s + 1/10000 is not 0 and +infinity when it is 0, and the integer inverse flag
= (1 when `invert` is 0, else 0); it selects the three-input luma-mix effect
when the width and height left by the acquisitions are both at least 1, and
leaves the effect record as it was otherwise. -/
theorem C7_three_input_parameters (env : Env) (w : World) (a : Frame) (b cf : Nat)
    (S : List StackItem) (width height writable : Int) :
    ∃ r, get_image env w
        { a with stack := StackItem.service w.id :: StackItem.frame (some b) ::
            StackItem.frame (some cf) :: S } width height writable = some r ∧
      r.world.properties "_movit.parms.float.progress"
        = some (PropValue.dbl
            (if mlt_properties_get_int env w.properties "reverse" ≠ 0
              then 1 - env.get_progress a.id else env.get_progress a.id)) ∧
      r.world.properties "_movit.parms.float.transition_width"
        = some
            (if env.anim_get_double (w.properties "softness") (env.get_position a.id)
                env.get_length + 1 / 10000 = 0
              then PropValue.inf
              else PropValue.dbl
                (1 / (env.anim_get_double (w.properties "softness") (env.get_position a.id)
                  env.get_length + 1 / 10000))) ∧
      r.world.properties "_movit.parms.int.inverse"
        = some (PropValue.int
            (if mlt_properties_get_int env w.properties "invert" = 0 then 1 else 0)) ∧
      r.a_frame.glsl.effect
        = (if r.width < 1 ∨ r.height < 1 then a.glsl.effect
            else some Effect.LumaMixEffect) := by
  refine ⟨_, get_image_staged env w a b (some cf) S width height writable, ?_⟩
  rw [get_image_body_some, get_image_three_properties, get_image_three_effect]
  simp [mlt_properties_set_double, mlt_properties_set_int, mlt_properties_set_value,
    one_over, Props.write, mlt_service_lock]

/-- C7 at scenario B: `resource` "wipe.pgm", softness 0, `invert` and `reverse`
0, position 0 of length 100, sizes 1920 x 1080: progress 0, transition width
10000, inverse flag 1, and the luma-mix effect is selected. -/
theorem C7_scenario_B :
    ∃ r, get_image (sample_env 0 0 0 1920 1080 0 100) (sample_world scenario_B_properties)
        (sample_frame [StackItem.service 1, StackItem.frame (some 20),
          StackItem.frame (some 30)]) 1920 1080 0 = some r ∧
      r.world.properties "_movit.parms.float.progress" = some (PropValue.dbl 0) ∧
      r.world.properties "_movit.parms.float.transition_width"
        = some (PropValue.dbl 10000) ∧
      r.world.properties "_movit.parms.int.inverse" = some (PropValue.int 1) ∧
      r.a_frame.glsl.effect = some Effect.LumaMixEffect := by
  obtain ⟨r, hr, h1, h2, h3, h4⟩ :=
    C7_three_input_parameters (sample_env 0 0 0 1920 1080 0 100)
      (sample_world scenario_B_properties) (sample_frame []) 20 30 [] 1920 1080 0
  have hw : r.width = 1920 ∧ r.height = 1080 := by
    have hr' := (get_image_staged (sample_env 0 0 0 1920 1080 0 100)
      (sample_world scenario_B_properties) (sample_frame []) 20 (some 30) [] 1920 1080 0).symm.trans hr
    rw [Option.some.injEq] at hr'
    rw [← hr', get_image_body_some]
    simp [get_image_three, sample_env]
  refine ⟨r, hr, ?_, ?_, ?_, ?_⟩
  · rw [h1]
    simp [mlt_properties_get_int, sample_world, scenario_B_properties, Props.write,
      sample_env, transition_progress]
  · rw [h2]
    simp [sample_world, scenario_B_properties, Props.write, sample_env]
  · rw [h3]
    simp [mlt_properties_get_int, sample_world, scenario_B_properties, Props.write]
  · rw [h4, hw.1, hw.2]
    simp

/-- C7 as stated fails, in two ways. (1) A pattern frame is present, but the
acquisitions leave width 0, so `get_image` returns before binding anything and
no effect is selected. (2) At softness -1/10000 the divisor is 0: the value
written is +infinity, not a quotient. -/
theorem C7_three_input_counterexample :
    (∃ r, get_image (sample_env 0 0 0 0 1080 0 100) (sample_world scenario_B_properties)
        (sample_frame [StackItem.service 1, StackItem.frame (some 20),
          StackItem.frame (some 30)]) 1920 1080 0 = some r ∧
      r.width = 0 ∧
      r.a_frame.glsl.effect = none ∧
      r.a_frame.glsl.effect ≠ some Effect.LumaMixEffect) ∧
    (∃ r, get_image (sample_env 0 0 0 1920 1080 0 100) (sample_world pole_properties)
        (sample_frame [StackItem.service 1, StackItem.frame (some 20),
          StackItem.frame (some 30)]) 1920 1080 0 = some r ∧
      (sample_env 0 0 0 1920 1080 0 100).anim_get_double
        ((sample_world pole_properties).properties "softness") 0 100 = -1 / 10000 ∧
      r.world.properties "_movit.parms.float.transition_width" = some PropValue.inf ∧
      ∀ q, r.world.properties "_movit.parms.float.transition_width"
        ≠ some (PropValue.dbl q)) := by
  constructor
  · refine ⟨_, get_image_staged (sample_env 0 0 0 0 1080 0 100)
      (sample_world scenario_B_properties) (sample_frame []) 20 (some 30) [] 1920 1080 0, ?_⟩
    rw [get_image_body_some]
    simp [get_image_three, sample_env, sample_frame]
  · have hs : (sample_env 0 0 0 1920 1080 0 100).anim_get_double
        ((sample_world pole_properties).properties "softness") 0 100 = -1 / 10000 := by
      simp [sample_env, sample_world, pole_properties, Props.write]
    obtain ⟨r, hr, -, h2, -⟩ :=
      (show ∃ r, get_image (sample_env 0 0 0 1920 1080 0 100) (sample_world pole_properties)
          (sample_frame [StackItem.service 1, StackItem.frame (some 20),
            StackItem.frame (some 30)]) 1920 1080 0 = some r ∧ True ∧
          r.world.properties "_movit.parms.float.transition_width" = some PropValue.inf ∧
          True from by
        refine ⟨_, get_image_staged (sample_env 0 0 0 1920 1080 0 100)
          (sample_world pole_properties) (sample_frame []) 20 (some 30) [] 1920 1080 0,
          trivial, ?_, trivial⟩
        rw [get_image_body_some, get_image_three_properties]
        have hs' : (sample_env 0 0 0 1920 1080 0 100).anim_get_double
            ((mlt_service_lock (sample_world pole_properties)).properties "softness")
            ((sample_env 0 0 0 1920 1080 0 100).get_position (sample_frame []).id)
            (sample_env 0 0 0 1920 1080 0 100).get_length = -1 / 10000 := hs
        simp only [mlt_service_lock] at hs' ⊢
        rw [hs']
        have hz : (-1 / 10000 + 1 / 10000 : ℚ) = 0 := by norm_num
        rw [hz]
        simp [mlt_properties_set_int, mlt_properties_set_value, one_over, Props.write])
    refine ⟨r, hr, hs, h2, ?_⟩
    intro q
    rw [h2]
    simp

end MovitLuma
